import Mathlib

/-!
Verification of `src/main.py` — a cursor-paginated product fetcher.

The Python program is shallowly embedded below:
* `Product` models the JSON page shape (one record per page, with an
  optional continuation token);
* `fetch_product` models the retry loop of `fetch_product` (lines 17-47),
  parameterised by a transport oracle giving the HTTP outcome of each
  attempt, and returns the request URL, the number of attempts performed,
  the backoff sleeps in order, and the outcome;
* `fetchAllLoop` / `fetch_all_products_parallel` model the `while True`
  traversal of `fetch_all_products_parallel` (lines 50-106), with explicit
  fuel because the Python loop can diverge;
* `analyzeStep` / `analyze_products` model `analyze_products` (lines 109-145).
-/

/-- A fetched page, following the JSON page shape consumed by the code:
`product_id`, `product_name`, `category`, `price`, optional
`next_product_token`. Prices are modelled as rationals. -/
structure Product where
  product_id : Int
  product_name : String
  category : String
  price : ℚ
  next_product_token : Option String
deriving Repr, DecidableEq

/-- Outcome of one HTTP attempt, as classified by the code's transport:
either a response with a status code and a body that parses as a page
(malformed bodies are not modelled — every modelled response body parses),
or a network-level fault (`requests.RequestException` from the GET itself). -/
inductive HttpResult where
  | response (code : Nat) (page : Product)
  | netError
deriving Repr, DecidableEq

/-- Python truthiness of an optional string, as used by
`if next_product_token:` — `None` and the empty string are falsy. -/
def pyTruthy : Option String → Bool
  | none => false
  | some s => !s.isEmpty

/-- How a Python f-string renders an `Optional[str]`. -/
def pyShowOptStr : Option String → String
  | none => "None"
  | some s => s

-- Constants of src/main.py (lines 10-14).

def BASE_URL : String := "http://145.239.87.46:8000/product"

def RETRY_LIMIT : Nat := 5

def INITIAL_RETRY_DELAY : Nat := 1

def MAX_WORKERS : Nat := 5

/-- Hexadecimal digit, uppercase, as produced by `urllib.parse.quote`. -/
def hexDigit (n : Nat) : Char :=
  if n < 10 then Char.ofNat (48 + n) else Char.ofNat (55 + n)

/-- UTF-8 encoding of a single character as a list of byte values. -/
def utf8Bytes (c : Char) : List Nat :=
  let n := c.toNat
  if n < 128 then [n]
  else if n < 2048 then [192 + n / 64, 128 + n % 64]
  else if n < 65536 then [224 + n / 4096, 128 + n / 64 % 64, 128 + n % 64]
  else [240 + n / 262144, 128 + n / 4096 % 64, 128 + n / 64 % 64, 128 + n % 64]

/-- Percent-encoding of one byte: `%XX` with uppercase hex. -/
def percentByte (b : Nat) : String :=
  String.mk ['%', hexDigit (b / 16), hexDigit (b % 16)]

/-- Characters `urllib.parse.quote` leaves unencoded with its default
`safe='/'`: ASCII letters, digits, `_.-~` and `/`. -/
def quoteSafe (c : Char) : Bool :=
  c.isAlphanum || c = '_' || c = '.' || c = '-' || c = '~' || c = '/'

/-- `urllib.parse.quote` with default arguments: safe characters pass
through, every other character is percent-encoded byte by byte (UTF-8). -/
def pyQuote (s : String) : String :=
  String.join (s.data.map fun c =>
    if quoteSafe c then String.mk [c] else String.join ((utf8Bytes c).map percentByte))

/-- The request URL built by `fetch_product` (lines 29-31): start from
`BASE_URL` and append the encoded token as a query parameter only when the
token is truthy. -/
def buildUrl (token : Option String) : String :=
  if pyTruthy token then
    BASE_URL ++ "?next_product_token=" ++ pyQuote (pyShowOptStr token)
  else BASE_URL

/-- The retry loop of `fetch_product` (lines 33-47), one step per attempt.
`transport k` is the HTTP outcome of attempt `k` (0-based). Returns the
number of attempts performed, the list of sleeps (in seconds, in order),
and either the fetched page or the final error message.

Faithful to the Python control flow: a 503 sleeps, doubles the delay and
retries; any status of 400 or above makes `raise_for_status` raise an
`HTTPError`, which — being a `requests.RequestException` — is caught by the
`except` clause, which also sleeps, doubles and retries; a network fault
takes the same `except` path; any other status returns the parsed body.
After the last attempt the loop falls through and raises. -/
def fetchLoop (transport : Nat → HttpResult) (token : Option String) :
    Nat → Nat → Nat → Nat × List Nat × Except String Product
  | _, 0, _ =>
    (0, [], Except.error
      ("Failed to fetch product data for token: " ++ pyShowOptStr token ++
        " after several retries"))
  | attempt, remaining + 1, delay =>
    match transport attempt with
    | HttpResult.response code page =>
      if code = 503 then
        let rest := fetchLoop transport token (attempt + 1) remaining (delay * 2)
        (rest.1 + 1, delay :: rest.2.1, rest.2.2)
      else if 400 ≤ code then
        let rest := fetchLoop transport token (attempt + 1) remaining (delay * 2)
        (rest.1 + 1, delay :: rest.2.1, rest.2.2)
      else (1, [], Except.ok page)
    | HttpResult.netError =>
      let rest := fetchLoop transport token (attempt + 1) remaining (delay * 2)
      (rest.1 + 1, delay :: rest.2.1, rest.2.2)

deriving instance DecidableEq for Except

/-- Result of one call to `fetch_product`: the URL requested, the number of
attempts made, the backoff sleeps performed (in order), and the outcome. -/
structure FetchOutcome where
  url : String
  attempts : Nat
  sleeps : List Nat
  outcome : Except String Product
deriving Repr, DecidableEq

/-- `fetch_product` (lines 17-47): build the URL, then run the retry loop
with `RETRY_LIMIT` attempts starting from `INITIAL_RETRY_DELAY`. -/
def fetch_product (transport : Nat → HttpResult) (token : Option String) :
    FetchOutcome :=
  let r := fetchLoop transport token 0 RETRY_LIMIT INITIAL_RETRY_DELAY
  ⟨buildUrl token, r.1, r.2.1, r.2.2⟩

/-- The collector operation of `fetch_all_products_parallel`: a fetched page
is absorbed into the accumulated collection by `products.append(...)`
(lines 65 and 87) — a plain list append. -/
def absorb (products : List Product) (page : Product) : List Product :=
  products ++ [page]

/-- The dictionary comprehension of lines 79-82: the futures submitted on one
iteration are one per element of the singleton list `[next_product_token]`;
here, the list of tokens for which a future is submitted. -/
def future_to_token (token : Option String) : List (Option String) :=
  [token]

/-- Outcome of the traversal loop under explicit fuel: either the Python loop
broke out of `while True` with the accumulated products, or the fuel ran out
with the loop still going (accumulated products and current token shown). -/
inductive RunOutcome where
  | finished (products : List Product)
  | outOfFuel (products : List Product) (token : Option String)
deriving Repr, DecidableEq

/-- One `while True` iteration of `fetch_all_products_parallel`
(lines 61-104), as a fuel-indexed recursion. `server t k` is the HTTP
outcome of attempt `k` of a `fetch_product` call for token `t`.

Each iteration: a direct `fetch_product(next_product_token)` call; on
exception the outer `except` prints and loops with the token unchanged; on
success the page is absorbed and the token advanced, breaking out when the
new token is falsy; otherwise exactly one future is submitted for the new
token (`future_to_token`) and awaited: on exception the inner `except`
prints, the token stays the submitted one, and — being truthy — the loop
continues; on success the page is absorbed and the token advanced again,
breaking out when falsy. -/
def fetchAllLoop (server : Option String → Nat → HttpResult) :
    Nat → List Product → Option String → RunOutcome
  | 0, acc, token => RunOutcome.outOfFuel acc token
  | fuel + 1, acc, token =>
    match (fetch_product (server token) token).outcome with
    | Except.error _ => fetchAllLoop server fuel acc token
    | Except.ok page =>
      let acc1 := absorb acc page
      let tok1 := page.next_product_token
      if pyTruthy tok1 then
        match future_to_token tok1 with
        | [] => RunOutcome.finished acc1
        | ftok :: _ =>
          match (fetch_product (server ftok) ftok).outcome with
          | Except.error _ => fetchAllLoop server fuel acc1 ftok
          | Except.ok page2 =>
            let acc2 := absorb acc1 page2
            let tok2 := page2.next_product_token
            if pyTruthy tok2 then fetchAllLoop server fuel acc2 tok2
            else RunOutcome.finished acc2
      else RunOutcome.finished acc1

/-- `fetch_all_products_parallel` (lines 50-106): start with an empty
product list and no token, run the loop until it breaks (or fuel is
exhausted, which the Python code would experience as running forever). -/
def fetch_all_products_parallel (server : Option String → Nat → HttpResult)
    (fuel : Nat) : RunOutcome :=
  fetchAllLoop server fuel [] none

/-- The purely sequential traversal, written from the spec's description of
the token-chain walk (fetch the current token, absorb the page, advance to
the revealed token, stop on a falsy token): one fetch per iteration, to be
compared with `fetchAllLoop` for the refinement claim. -/
def seqLoop (server : Option String → Nat → HttpResult) :
    Nat → List Product → Option String → RunOutcome
  | 0, acc, token => RunOutcome.outOfFuel acc token
  | fuel + 1, acc, token =>
    match (fetch_product (server token) token).outcome with
    | Except.error _ => seqLoop server fuel acc token
    | Except.ok page =>
      let acc1 := absorb acc page
      let tok1 := page.next_product_token
      if pyTruthy tok1 then seqLoop server fuel acc1 tok1
      else RunOutcome.finished acc1

/-- The server answers every attempt for token `t` with an HTTP 200 whose
body is the page `p`. -/
def respondsWith (server : Option String → Nat → HttpResult)
    (t : Option String) (p : Product) : Prop :=
  ∀ k, server t k = HttpResult.response 200 p

/-- `Chain server t pages`: starting from token `t` the server exposes
exactly the token chain of `pages` without any failure — each page is
served successfully for the current token, each non-final page carries a
truthy continuation token leading to the next page, and the final page's
token is absent or empty. -/
inductive Chain (server : Option String → Nat → HttpResult) :
    Option String → List Product → Prop where
  | last {t : Option String} {p : Product} :
      respondsWith server t p → pyTruthy p.next_product_token = false →
      Chain server t [p]
  | cons {t : Option String} {p : Product} {ps : List Product} :
      respondsWith server t p → pyTruthy p.next_product_token = true →
      Chain server p.next_product_token ps →
      Chain server t (p :: ps)

/-- The claim's notion of a retryable transport failure: HTTP 503 or a
network-level fault. -/
def isRetryableFailure : HttpResult → Bool
  | HttpResult.netError => true
  | HttpResult.response code _ => code == 503

/-- The backoff sleep sequence the retry loop performs when every attempt
fails: one sleep per attempt, doubling each time. -/
def backoffSleeps (delay : Nat) : Nat → List Nat
  | 0 => []
  | r + 1 => delay :: backoffSleeps (delay * 2) r

/-- The most-expensive-fashion accumulator of `analyze_products`: a Python
dict initialised to `{'price': -1}` (line 124) and overwritten with id, name
and price when a strictly more expensive Fashion product is seen. -/
structure FashionPick where
  id : Option Int
  name : Option String
  price : ℚ
deriving Repr, DecidableEq

/-- The `{'price': -1}` sentinel dict of `analyze_products` line 124. -/
def fashionSentinel : FashionPick := ⟨none, none, -1⟩

/-- The mutable aggregation state of the `for product in products:` loop of
`analyze_products` (lines 123-141). Category counts are kept as an
association list, like the `defaultdict(int)`. -/
structure AnalyzeAcc where
  category_counts : List (String × Nat)
  most_expensive_fashion : FashionPick
  toys_games_total_price : ℚ
  toys_games_count : Nat
deriving Repr, DecidableEq

/-- `category_counts[category] += 1` on a `defaultdict(int)`. -/
def bumpCount : List (String × Nat) → String → List (String × Nat)
  | [], c => [(c, 1)]
  | (k, v) :: rest, c =>
    if k = c then (k, v + 1) :: rest else (k, v) :: bumpCount rest c

/-- One iteration of the loop of `analyze_products` (lines 128-141):
count the category; replace the fashion pick when the product is `Fashion`
and strictly more expensive than the current pick; add `Toys & Games`
prices into the running total and count. -/
def analyzeStep (st : AnalyzeAcc) (p : Product) : AnalyzeAcc :=
  let counts := bumpCount st.category_counts p.category
  let pick :=
    if p.category = "Fashion" ∧ st.most_expensive_fashion.price < p.price then
      FashionPick.mk (some p.product_id) (some p.product_name) p.price
    else st.most_expensive_fashion
  if p.category = "Toys & Games" then
    ⟨counts, pick, st.toys_games_total_price + p.price, st.toys_games_count + 1⟩
  else
    ⟨counts, pick, st.toys_games_total_price, st.toys_games_count⟩

/-- `analyze_products` (lines 109-145): fold the loop over the product list
and return total count, category counts, most expensive fashion pick, and
the average `Toys & Games` price — guarded by `if toys_games_count` so an
empty category yields 0 instead of dividing by zero. -/
def analyze_products (products : List Product) :
    Nat × List (String × Nat) × FashionPick × ℚ :=
  let st := products.foldl analyzeStep ⟨[], fashionSentinel, 0, 0⟩
  (products.length, st.category_counts, st.most_expensive_fashion,
    if st.toys_games_count = 0 then 0
    else st.toys_games_total_price / (st.toys_games_count : ℚ))

/-- The reporting decision of `main` (lines 177-181): the fashion pick's
details are printed only when its price is at least 0; otherwise the report
says no products were found in the Fashion category. -/
def reportsFashion (pick : FashionPick) : Bool :=
  decide (0 ≤ pick.price)

-- Concrete pages and servers used in the closed statements below.

/-- Page 1 of the duplicate-identifier chain: identifier 1, token `T`. -/
def dupPage1 : Product := ⟨1, "First", "Pet Supplies", 10, some "T"⟩

/-- Page 2 of the duplicate-identifier chain: the same identifier 1. -/
def dupPage2 : Product := ⟨1, "Second", "Pet Supplies", 20, none⟩

/-- A failure-free server whose chain is `dupPage1 → dupPage2`. -/
def dupServer : Option String → Nat → HttpResult
  | none, _ => HttpResult.response 200 dupPage1
  | some _, _ => HttpResult.response 200 dupPage2

/-- Page 1 of a two-page chain with distinct identifiers. -/
def wPage1 : Product := ⟨1, "First", "Fashion", 10, some "T"⟩

/-- Page 2 of the two-page chain with distinct identifiers. -/
def wPage2 : Product := ⟨2, "Second", "Toys & Games", 20, none⟩

/-- A failure-free server whose chain is `wPage1 → wPage2`. -/
def wServer : Option String → Nat → HttpResult
  | none, _ => HttpResult.response 200 wPage1
  | some _, _ => HttpResult.response 200 wPage2

/-- Page 1 of a three-page chain whose last page carries an empty token. -/
def ePage1 : Product := ⟨10, "E1", "Electronics", 1, some "U1"⟩

/-- Page 2 of the three-page chain. -/
def ePage2 : Product := ⟨11, "E2", "Electronics", 2, some "U2"⟩

/-- Page 3 of the three-page chain: its continuation token is the empty
string, which is falsy and ends the chain. -/
def ePage3 : Product := ⟨12, "E3", "Electronics", 3, some ""⟩

/-- A failure-free server whose chain is `ePage1 → ePage2 → ePage3`. -/
def eServer : Option String → Nat → HttpResult
  | none, _ => HttpResult.response 200 ePage1
  | some "U1", _ => HttpResult.response 200 ePage2
  | some _, _ => HttpResult.response 200 ePage3

/-- The one page served before the fatal token: its token `T2` always
fails. -/
def haltPage : Product := ⟨1, "Only", "Office Supplies", 5, some "T2"⟩

/-- A server whose first page succeeds and whose second page (token `T2`)
returns HTTP 400 on every attempt — the end-to-end scenario of the spec. -/
def fatalServer : Option String → Nat → HttpResult
  | none, _ => HttpResult.response 200 haltPage
  | some _, _ => HttpResult.response 400 haltPage

/-- The body used by the probe transports (never relevant to a 400). -/
def probePage : Product := ⟨7, "Probe", "Automotive", 3, none⟩

/-- A transport that answers HTTP 400 on every attempt. -/
def always400 : Nat → HttpResult := fun _ => HttpResult.response 400 probePage

/-- A transport that answers HTTP 400 on the first attempt and HTTP 200 on
every later one. -/
def fatalThenOk : Nat → HttpResult
  | 0 => HttpResult.response 400 probePage
  | _ + 1 => HttpResult.response 200 probePage

/-- A token served successfully on every attempt is fetched on the first
attempt, with no sleeps. -/
theorem fetch_product_ok (server : Option String → Nat → HttpResult)
    (t : Option String) (p : Product) (h : respondsWith server t p) :
    fetch_product (server t) t =
      ⟨buildUrl t, 1, [], Except.ok p⟩ := by
  have h0 := h 0
  simp [fetch_product, RETRY_LIMIT, INITIAL_RETRY_DELAY, fetchLoop, h0]

/-- Main traversal lemma: over a failure-free token chain, the loop of
`fetch_all_products_parallel` terminates and appends exactly the chain's
pages, in order, to the accumulator — given at least one unit of fuel per
page (each iteration absorbs one or two pages). -/
theorem fetchAllLoop_chain (server : Option String → Nat → HttpResult) :
    ∀ (fuel : Nat) (t : Option String) (ps acc : List Product),
      Chain server t ps → ps.length ≤ fuel →
      fetchAllLoop server fuel acc t = RunOutcome.finished (acc ++ ps) := by
  intro fuel
  induction fuel with
  | zero =>
    intro t ps acc hch hle
    cases hch <;> simp at hle
  | succ n ih =>
    intro t ps acc hch hle
    cases hch with
    | last h1 h2 =>
      rename_i p
      have hfp := fetch_product_ok server t p h1
      simp [fetchAllLoop, hfp, h2, absorb]
    | cons h1 h2 hsub =>
      rename_i p ps'
      have hfp := fetch_product_ok server t p h1
      cases hsub with
      | last hq1 hq2 =>
        rename_i q
        have hfq := fetch_product_ok server p.next_product_token q hq1
        simp [fetchAllLoop, hfp, h2, future_to_token, hfq, hq2, absorb]
      | cons hq1 hq2 hsub2 =>
        rename_i q ps''
        have hfq := fetch_product_ok server p.next_product_token q hq1
        have hlen : ps''.length ≤ n := by
          simp at hle
          omega
        have hrec := ih q.next_product_token ps'' (acc ++ [p, q]) hsub2 hlen
        simp only [fetchAllLoop, hfp, h2, future_to_token, hfq, hq2, absorb]
        simp only [List.append_assoc, List.singleton_append]
        rw [hrec]
        simp

/-- **C1** as frozen is false: the traversal appends every fetched page to a
plain list, so a failure-free two-page chain whose pages share identifier 1
yields a final collection in which identifier 1 occurs twice, not once. -/
theorem c1_counterexample :
    Chain dupServer none [dupPage1, dupPage2] ∧
    fetch_all_products_parallel dupServer 2 =
      RunOutcome.finished [dupPage1, dupPage2] ∧
    List.count 1 ([dupPage1, dupPage2].map Product.product_id) = 2 ∧
    ¬ List.count 1 ([dupPage1, dupPage2].map Product.product_id) = 1 := by
  refine ⟨Chain.cons (fun _ => rfl) (by decide)
    (Chain.last (fun _ => rfl) (by decide)), ?_, by decide, by decide⟩
  decide

/-- **C1** (amended): for every finite token chain with no failing fetch
*whose pages carry pairwise distinct identifiers*, the final collection has
exactly one entry per page — its size equals the number of pages — and
every record's identifier occurs exactly once. -/
theorem c1_chain_unique (server : Option String → Nat → HttpResult)
    (pages : List Product) (hch : Chain server none pages)
    (hids : (pages.map Product.product_id).Nodup) :
    ∃ ps, fetch_all_products_parallel server pages.length =
        RunOutcome.finished ps ∧
      ps.length = pages.length ∧
      ∀ i ∈ ps.map Product.product_id,
        List.count i (ps.map Product.product_id) = 1 := by
  refine ⟨pages, ?_, rfl, fun i hi => List.count_eq_one_of_mem hids hi⟩
  have h := fetchAllLoop_chain server pages.length none pages [] hch le_rfl
  simpa [fetch_all_products_parallel] using h

/-- Witness for **C1** (amended) at the concrete two-page chain
`wPage1 → wPage2` with distinct identifiers 1 and 2. -/
theorem c1_chain_unique_witness :
    ∃ ps, fetch_all_products_parallel wServer 2 = RunOutcome.finished ps ∧
      ps.length = 2 ∧
      ∀ i ∈ ps.map Product.product_id,
        List.count i (ps.map Product.product_id) = 1 :=
  c1_chain_unique wServer [wPage1, wPage2]
    (Chain.cons (fun _ => rfl) (by decide)
      (Chain.last (fun _ => rfl) (by decide)))
    (by decide)

/-- **C6**: a failure-free chain whose final page carries an absent or empty
continuation token makes the traversal terminate after absorbing exactly as
many pages as the chain has. -/
theorem c6_termination (server : Option String → Nat → HttpResult)
    (pages : List Product) (hch : Chain server none pages) :
    ∃ ps, fetch_all_products_parallel server pages.length =
        RunOutcome.finished ps ∧ ps.length = pages.length := by
  refine ⟨pages, ?_, rfl⟩
  have h := fetchAllLoop_chain server pages.length none pages [] hch le_rfl
  simpa [fetch_all_products_parallel] using h

/-- Witness for **C6** at a three-page chain whose last page's token is the
empty string. -/
theorem c6_termination_witness :
    ∃ ps, fetch_all_products_parallel eServer 3 = RunOutcome.finished ps ∧
      ps.length = 3 :=
  c6_termination eServer [ePage1, ePage2, ePage3]
    (Chain.cons (fun _ => rfl) (by decide)
      (Chain.cons (fun _ => rfl) (by decide)
        (Chain.last (fun _ => rfl) (by decide))))

/-- Over `fatalServer`, once the loop holds token `T2` it never makes
progress: every fetch of `T2` exhausts its retries, the exception handlers
leave the token unchanged, and fuel runs out with the accumulator intact. -/
theorem fetchAllLoop_fatal_stuck :
    ∀ (fuel : Nat) (acc : List Product),
      fetchAllLoop fatalServer fuel acc (some "T2") =
        RunOutcome.outOfFuel acc (some "T2") := by
  intro fuel
  induction fuel with
  | zero => intro acc; rfl
  | succ n ih =>
    intro acc
    have herr : (fetch_product (fatalServer (some "T2")) (some "T2")).outcome =
        Except.error
          ("Failed to fetch product data for token: T2 after several retries") := by
      decide
    simp only [fetchAllLoop, herr]
    exact ih acc

/-- **C2**: on the spec's page-2-returns-400 scenario the code diverges:
for every fuel bound the loop is still running, having collected only page 1
and still holding token `T2` — it never terminates, never reports, and keeps
no failure log (none exists in the code). -/
theorem c2_nonterminating (fuel : Nat) :
    fetch_all_products_parallel fatalServer (fuel + 1) =
      RunOutcome.outOfFuel [haltPage] (some "T2") := by
  have hok : (fetch_product (fatalServer none) none).outcome =
      Except.ok haltPage := by decide
  have herr : (fetch_product (fatalServer (some "T2")) (some "T2")).outcome =
      Except.error
        ("Failed to fetch product data for token: T2 after several retries") := by
    decide
  simp only [fetch_all_products_parallel, fetchAllLoop, hok, herr, absorb,
    future_to_token]
  simp only [show pyTruthy haltPage.next_product_token = true from by decide,
    if_true]
  exact fetchAllLoop_fatal_stuck fuel [haltPage]

/-- **C3** as frozen is refuted by evaluation: an HTTP 400 does not
short-circuit. `raise_for_status`'s `HTTPError` is a `RequestException`, so
the retry loop catches it, sleeps, and retries: an always-400 transport gets
all 5 attempts with backoff sleeps 1,2,4,8,16, and a transport answering 400
then 200 *succeeds* on the second attempt. -/
theorem c3_fatal_is_retried :
    (fetch_product always400 (some "tok")).attempts = RETRY_LIMIT ∧
    (fetch_product always400 (some "tok")).sleeps = [1, 2, 4, 8, 16] ∧
    (fetch_product always400 (some "tok")).outcome =
      Except.error
        ("Failed to fetch product data for token: tok after several retries") ∧
    (fetch_product fatalThenOk (some "tok")).attempts = 2 ∧
    (fetch_product fatalThenOk (some "tok")).outcome = Except.ok probePage := by
  decide

/-- Under an all-retryable transport the retry loop uses its whole budget:
`remaining` attempts, one sleep per attempt with doubling delays, and the
exhausted-retries error. -/
theorem fetchLoop_all_retryable (transport : Nat → HttpResult)
    (token : Option String)
    (h : ∀ k, isRetryableFailure (transport k) = true) :
    ∀ (remaining attempt delay : Nat),
      fetchLoop transport token attempt remaining delay =
        (remaining, backoffSleeps delay remaining,
          Except.error
            ("Failed to fetch product data for token: " ++ pyShowOptStr token ++
              " after several retries")) := by
  intro remaining
  induction remaining with
  | zero => intro attempt delay; rfl
  | succ r ih =>
    intro attempt delay
    have hk := h attempt
    cases htr : transport attempt with
    | response code page =>
      rw [htr] at hk
      simp only [isRetryableFailure, beq_iff_eq] at hk
      simp [fetchLoop, htr, hk, ih, backoffSleeps]
    | netError =>
      simp [fetchLoop, htr, ih, backoffSleeps]

/-- **C4**: when every transport attempt is a retryable failure (HTTP 503 or
a network fault), `fetch_product` performs exactly `RETRY_LIMIT` = 5
attempts, its backoff sleeps are the strictly doubling sequence
d, 2d, 4d, ... starting from `INITIAL_RETRY_DELAY` = d, and it ends in the
exhausted-retries error naming the token. -/
theorem c4_retry_budget (transport : Nat → HttpResult) (token : Option String)
    (h : ∀ k, isRetryableFailure (transport k) = true) :
    (fetch_product transport token).attempts = RETRY_LIMIT ∧
    (fetch_product transport token).sleeps =
      [INITIAL_RETRY_DELAY, INITIAL_RETRY_DELAY * 2, INITIAL_RETRY_DELAY * 4,
        INITIAL_RETRY_DELAY * 8, INITIAL_RETRY_DELAY * 16] ∧
    (fetch_product transport token).outcome =
      Except.error
        ("Failed to fetch product data for token: " ++ pyShowOptStr token ++
          " after several retries") := by
  have hl := fetchLoop_all_retryable transport token h RETRY_LIMIT 0
    INITIAL_RETRY_DELAY
  refine ⟨?_, ?_, ?_⟩ <;> simp only [fetch_product] <;> rw [hl]
  show backoffSleeps INITIAL_RETRY_DELAY RETRY_LIMIT =
    [INITIAL_RETRY_DELAY, INITIAL_RETRY_DELAY * 2, INITIAL_RETRY_DELAY * 4,
      INITIAL_RETRY_DELAY * 8, INITIAL_RETRY_DELAY * 16]
  decide

/-- Witness for **C4** at a transport that always reports a network fault
and the token `abc`. -/
theorem c4_retry_budget_witness :
    (fetch_product (fun _ => HttpResult.netError) (some "abc")).attempts =
      RETRY_LIMIT ∧
    (fetch_product (fun _ => HttpResult.netError) (some "abc")).sleeps =
      [INITIAL_RETRY_DELAY, INITIAL_RETRY_DELAY * 2, INITIAL_RETRY_DELAY * 4,
        INITIAL_RETRY_DELAY * 8, INITIAL_RETRY_DELAY * 16] ∧
    (fetch_product (fun _ => HttpResult.netError) (some "abc")).outcome =
      Except.error
        ("Failed to fetch product data for token: abc after several retries") :=
  c4_retry_budget (fun _ => HttpResult.netError) (some "abc") (fun _ => rfl)

/-- **C5** as frozen is false: absorbing is a list append, not a keyed
overwrite. Absorbing two pages that share identifier 1 grows the collection
from size 1 to size 2 — the size does change — and identifier 1 appears
twice afterwards. -/
theorem c5_counterexample :
    (absorb (absorb [] dupPage1) dupPage2).length = 2 ∧
    ¬ (absorb (absorb [] dupPage1) dupPage2).length =
        (absorb [] dupPage1).length ∧
    List.count 1 ((absorb (absorb [] dupPage1) dupPage2).map
      Product.product_id) = 2 := by
  decide

/-- **C5** (amended): absorbing a page appends it, so absorbing a second
page with the same identifier grows the collection by one again (to
`products.length + 2` from `products.length`), and the shared identifier
afterwards occurs at least twice — a revisited token duplicates its record
instead of overwriting it. -/
theorem c5_absorb_appends (products : List Product) (p q : Product)
    (hid : q.product_id = p.product_id) :
    (absorb (absorb products p) q).length = products.length + 2 ∧
    2 ≤ List.count p.product_id
      ((absorb (absorb products p) q).map Product.product_id) := by
  constructor
  · simp [absorb]
  · simp [absorb, hid, List.count_append]

/-- Witness for **C5** (amended) at the empty collection and the two
concrete pages sharing identifier 1. -/
theorem c5_absorb_appends_witness :
    (absorb (absorb [] dupPage1) dupPage2).length =
      List.length ([] : List Product) + 2 ∧
    2 ≤ List.count dupPage1.product_id
      ((absorb (absorb [] dupPage1) dupPage2).map Product.product_id) :=
  c5_absorb_appends [] dupPage1 dupPage2 (by decide)

/-- **C7**: the request URL is the bare base URL when the token is absent or
empty, and the base URL followed by `?next_product_token=` and the
URL-encoded token otherwise. -/
theorem c7_request_url (transport : Nat → HttpResult) (t : String) :
    (fetch_product transport none).url = BASE_URL ∧
    (fetch_product transport (some "")).url = BASE_URL ∧
    (t.isEmpty = false →
      (fetch_product transport (some t)).url =
        BASE_URL ++ "?next_product_token=" ++ pyQuote t) := by
  refine ⟨rfl, rfl, fun h => ?_⟩
  simp [fetch_product, buildUrl, pyTruthy, pyShowOptStr, h]

/-- Unfolding lemma: a failed direct fetch leaves the loop's state alone. -/
theorem parLoop_step_err (server : Option String → Nat → HttpResult)
    (g : Nat) (acc : List Product) (t : Option String) (e : String)
    (hfp : (fetch_product (server t) t).outcome = Except.error e) :
    fetchAllLoop server (g + 1) acc t = fetchAllLoop server g acc t := by
  simp [fetchAllLoop, hfp]

/-- Unfolding lemma: a direct fetch whose page has a falsy token finishes. -/
theorem parLoop_finish1 (server : Option String → Nat → HttpResult)
    (g : Nat) (acc : List Product) (t : Option String) (p : Product)
    (hfp : (fetch_product (server t) t).outcome = Except.ok p)
    (htok : pyTruthy p.next_product_token = false) :
    fetchAllLoop server (g + 1) acc t = RunOutcome.finished (absorb acc p) := by
  simp [fetchAllLoop, hfp, htok]

/-- Unfolding lemma: direct fetch succeeds with a truthy token and the
awaited future fails — the loop keeps the submitted token. -/
theorem parLoop_step2_err (server : Option String → Nat → HttpResult)
    (g : Nat) (acc : List Product) (t : Option String) (p : Product) (e : String)
    (hfp : (fetch_product (server t) t).outcome = Except.ok p)
    (htok : pyTruthy p.next_product_token = true)
    (hfq : (fetch_product (server p.next_product_token)
      p.next_product_token).outcome = Except.error e) :
    fetchAllLoop server (g + 1) acc t =
      fetchAllLoop server g (absorb acc p) p.next_product_token := by
  simp [fetchAllLoop, hfp, htok, future_to_token, hfq]

/-- Unfolding lemma: both the direct fetch and the awaited future succeed
and the second page's token is falsy — the loop finishes with both pages. -/
theorem parLoop_finish2 (server : Option String → Nat → HttpResult)
    (g : Nat) (acc : List Product) (t : Option String) (p q : Product)
    (hfp : (fetch_product (server t) t).outcome = Except.ok p)
    (htok : pyTruthy p.next_product_token = true)
    (hfq : (fetch_product (server p.next_product_token)
      p.next_product_token).outcome = Except.ok q)
    (htok2 : pyTruthy q.next_product_token = false) :
    fetchAllLoop server (g + 1) acc t =
      RunOutcome.finished (absorb (absorb acc p) q) := by
  simp [fetchAllLoop, hfp, htok, future_to_token, hfq, htok2]

/-- Unfolding lemma: both fetches succeed with truthy tokens — the loop
absorbs two pages and continues from the second token. -/
theorem parLoop_step2_ok (server : Option String → Nat → HttpResult)
    (g : Nat) (acc : List Product) (t : Option String) (p q : Product)
    (hfp : (fetch_product (server t) t).outcome = Except.ok p)
    (htok : pyTruthy p.next_product_token = true)
    (hfq : (fetch_product (server p.next_product_token)
      p.next_product_token).outcome = Except.ok q)
    (htok2 : pyTruthy q.next_product_token = true) :
    fetchAllLoop server (g + 1) acc t =
      fetchAllLoop server g (absorb (absorb acc p) q) q.next_product_token := by
  simp [fetchAllLoop, hfp, htok, future_to_token, hfq, htok2]

/-- Unfolding lemma for the sequential loop: a failed fetch changes
nothing. -/
theorem seqLoop_step_err (server : Option String → Nat → HttpResult)
    (g : Nat) (acc : List Product) (t : Option String) (e : String)
    (hfp : (fetch_product (server t) t).outcome = Except.error e) :
    seqLoop server (g + 1) acc t = seqLoop server g acc t := by
  simp [seqLoop, hfp]

/-- Unfolding lemma for the sequential loop: a page with a falsy token
finishes the walk. -/
theorem seqLoop_finish (server : Option String → Nat → HttpResult)
    (g : Nat) (acc : List Product) (t : Option String) (p : Product)
    (hfp : (fetch_product (server t) t).outcome = Except.ok p)
    (htok : pyTruthy p.next_product_token = false) :
    seqLoop server (g + 1) acc t = RunOutcome.finished (absorb acc p) := by
  simp [seqLoop, hfp, htok]

/-- Unfolding lemma for the sequential loop: a page with a truthy token is
absorbed and the walk advances. -/
theorem seqLoop_step_ok (server : Option String → Nat → HttpResult)
    (g : Nat) (acc : List Product) (t : Option String) (p : Product)
    (hfp : (fetch_product (server t) t).outcome = Except.ok p)
    (htok : pyTruthy p.next_product_token = true) :
    seqLoop server (g + 1) acc t =
      seqLoop server g (absorb acc p) p.next_product_token := by
  simp [seqLoop, hfp, htok]

/-- Every finished run of the code's loop is a finished run of the
sequential walk, with the same final collection. -/
theorem par_to_seq (server : Option String → Nat → HttpResult) :
    ∀ (fuel : Nat) (acc : List Product) (t : Option String) (ps : List Product),
      fetchAllLoop server fuel acc t = RunOutcome.finished ps →
      ∃ g, seqLoop server g acc t = RunOutcome.finished ps := by
  intro fuel
  induction fuel with
  | zero => intro acc t ps h; simp [fetchAllLoop] at h
  | succ n ih =>
    intro acc t ps h
    simp only [fetchAllLoop] at h
    cases hfp : (fetch_product (server t) t).outcome with
    | error e =>
      simp only [hfp] at h
      obtain ⟨g, hg⟩ := ih acc t ps h
      exact ⟨g + 1, (seqLoop_step_err server g acc t e hfp).trans hg⟩
    | ok p =>
      simp only [hfp] at h
      cases htok : pyTruthy p.next_product_token with
      | false =>
        simp only [htok, Bool.false_eq_true, if_false] at h
        exact ⟨1, (seqLoop_finish server 0 acc t p hfp htok).trans h⟩
      | true =>
        simp only [htok, if_true, future_to_token] at h
        cases hfq : (fetch_product (server p.next_product_token)
            p.next_product_token).outcome with
        | error e =>
          simp only [hfq] at h
          obtain ⟨g, hg⟩ := ih (absorb acc p) p.next_product_token ps h
          exact ⟨g + 1, (seqLoop_step_ok server g acc t p hfp htok).trans hg⟩
        | ok q =>
          simp only [hfq] at h
          cases htok2 : pyTruthy q.next_product_token with
          | false =>
            simp only [htok2, Bool.false_eq_true, if_false] at h
            refine ⟨2, ?_⟩
            have h1 := seqLoop_step_ok server 1 acc t p hfp htok
            have h2 := seqLoop_finish server 0 (absorb acc p)
              p.next_product_token q hfq htok2
            exact h1.trans (h2.trans h)
          | true =>
            simp only [htok2, if_true] at h
            obtain ⟨g, hg⟩ := ih (absorb (absorb acc p) q)
              q.next_product_token ps h
            refine ⟨g + 2, ?_⟩
            have h1 := seqLoop_step_ok server (g + 1) acc t p hfp htok
            have h2 := seqLoop_step_ok server g (absorb acc p)
              p.next_product_token q hfq htok2
            exact h1.trans (h2.trans hg)

/-- Every finished run of the sequential walk is a finished run of the
code's loop, with the same final collection. -/
theorem seq_to_par (server : Option String → Nat → HttpResult) :
    ∀ (fuel : Nat) (acc : List Product) (t : Option String) (ps : List Product),
      seqLoop server fuel acc t = RunOutcome.finished ps →
      ∃ g, fetchAllLoop server g acc t = RunOutcome.finished ps := by
  intro fuel
  induction fuel using Nat.strong_induction_on with
  | _ fuel ih =>
    cases fuel with
    | zero => intro acc t ps h; simp [seqLoop] at h
    | succ f =>
      intro acc t ps h
      simp only [seqLoop] at h
      cases hfp : (fetch_product (server t) t).outcome with
      | error e =>
        simp only [hfp] at h
        obtain ⟨g, hg⟩ := ih f (by omega) acc t ps h
        exact ⟨g + 1, (parLoop_step_err server g acc t e hfp).trans hg⟩
      | ok p =>
        simp only [hfp] at h
        cases htok : pyTruthy p.next_product_token with
        | false =>
          simp only [htok, Bool.false_eq_true, if_false] at h
          exact ⟨1, (parLoop_finish1 server 0 acc t p hfp htok).trans h⟩
        | true =>
          simp only [htok, if_true] at h
          cases f with
          | zero => simp [seqLoop] at h
          | succ f2 =>
            simp only [seqLoop] at h
            cases hfq : (fetch_product (server p.next_product_token)
                p.next_product_token).outcome with
            | error e =>
              simp only [hfq] at h
              obtain ⟨g, hg⟩ := ih f2 (by omega) (absorb acc p)
                p.next_product_token ps h
              exact ⟨g + 1,
                (parLoop_step2_err server g acc t p e hfp htok hfq).trans hg⟩
            | ok q =>
              simp only [hfq] at h
              cases htok2 : pyTruthy q.next_product_token with
              | false =>
                simp only [htok2, Bool.false_eq_true, if_false] at h
                exact ⟨1,
                  (parLoop_finish2 server 0 acc t p q hfp htok hfq htok2).trans h⟩
              | true =>
                simp only [htok2, if_true] at h
                obtain ⟨g, hg⟩ := ih f2 (by omega) (absorb (absorb acc p) q)
                  q.next_product_token ps h
                exact ⟨g + 1,
                  (parLoop_step2_ok server g acc t p q hfp htok hfq htok2).trans hg⟩

/-- **C8**: on every iteration the dictionary comprehension submits exactly
one future (one per element of the singleton token list), which is awaited
before any further fetch, so the code's "parallel" traversal is observably
equivalent to the purely sequential walk of the token chain: the two produce
exactly the same finished collections. -/
theorem c8_parallel_is_sequential (server : Option String → Nat → HttpResult)
    (ps : List Product) :
    (∀ tok, (future_to_token tok).length = 1) ∧
    ((∃ fuel, fetch_all_products_parallel server fuel =
        RunOutcome.finished ps) ↔
      (∃ fuel, seqLoop server fuel [] none = RunOutcome.finished ps)) := by
  refine ⟨fun tok => rfl, ⟨?_, ?_⟩⟩
  · rintro ⟨fuel, h⟩
    exact par_to_seq server fuel [] none ps h
  · rintro ⟨fuel, h⟩
    exact seq_to_par server fuel [] none ps h

/-- The `Toys & Games` counter stays at zero over a product list that never
carries that category. -/
theorem foldl_tg_count_zero (l : List Product) :
    ∀ st : AnalyzeAcc, (∀ p ∈ l, p.category ≠ "Toys & Games") →
      st.toys_games_count = 0 →
      (l.foldl analyzeStep st).toys_games_count = 0 := by
  induction l with
  | nil => intro st _ h0; simpa using h0
  | cons p rest ih =>
    intro st hall h0
    have hp : p.category ≠ "Toys & Games" := hall p (by simp)
    have hstep : (analyzeStep st p).toys_games_count = 0 := by
      simp [analyzeStep, hp, h0]
    exact ih (analyzeStep st p) (fun q hq => hall q (by simp [hq])) hstep

/-- The fashion pick is untouched by products outside the `Fashion`
category. -/
theorem foldl_fashion_unchanged (l : List Product) :
    ∀ st : AnalyzeAcc, (∀ p ∈ l, p.category ≠ "Fashion") →
      (l.foldl analyzeStep st).most_expensive_fashion =
        st.most_expensive_fashion := by
  induction l with
  | nil => intro st _; rfl
  | cons p rest ih =>
    intro st hall
    have hp : p.category ≠ "Fashion" := hall p (by simp)
    have hstep : (analyzeStep st p).most_expensive_fashion =
        st.most_expensive_fashion := by
      simp [analyzeStep, hp, apply_ite]
    rw [List.foldl_cons,
      ih (analyzeStep st p) (fun q hq => hall q (by simp [hq])), hstep]

/-- Invariant of the fashion pick: it is either strictly above the sentinel
price -1 or it is still the sentinel itself, because the strict `>`
comparison only ever replaces it with something strictly larger. -/
theorem foldl_fashion_invariant (l : List Product) :
    ∀ st : AnalyzeAcc,
      (-1 < st.most_expensive_fashion.price ∨
        st.most_expensive_fashion = fashionSentinel) →
      (-1 < (l.foldl analyzeStep st).most_expensive_fashion.price ∨
        (l.foldl analyzeStep st).most_expensive_fashion = fashionSentinel) := by
  induction l with
  | nil => intro st h; simpa using h
  | cons p rest ih =>
    intro st h
    refine ih (analyzeStep st p) ?_
    by_cases hc : p.category = "Fashion" ∧
      st.most_expensive_fashion.price < p.price
    · have hge : (-1 : ℚ) ≤ st.most_expensive_fashion.price := by
        rcases h with h1 | h2
        · exact le_of_lt h1
        · simp [h2, fashionSentinel]
      have hlt : (-1 : ℚ) < p.price := lt_of_le_of_lt hge hc.2
      have hm : (analyzeStep st p).most_expensive_fashion =
          FashionPick.mk (some p.product_id) (some p.product_name) p.price := by
        simp [analyzeStep, hc, apply_ite]
      rw [hm]
      exact Or.inl hlt
    · have hm : (analyzeStep st p).most_expensive_fashion =
          st.most_expensive_fashion := by
        simp [analyzeStep, hc, apply_ite]
      rw [hm]
      exact h

/-- **C9**: with no `Toys & Games` product in the list, `analyze_products`
returns 0 as that category's average price — the division is guarded by the
zero-count check, so it is never a division by zero. -/
theorem c9_no_toys_games_avg_zero (products : List Product)
    (h : ∀ p ∈ products, p.category ≠ "Toys & Games") :
    (analyze_products products).2.2.2 = 0 := by
  have hz := foldl_tg_count_zero products ⟨[], fashionSentinel, 0, 0⟩ h rfl
  simp [analyze_products, hz]

/-- Witness for **C9** at a one-product list whose category is `Fashion`. -/
theorem c9_no_toys_games_avg_zero_witness :
    (analyze_products [wPage1]).2.2.2 = 0 :=
  c9_no_toys_games_avg_zero [wPage1] (by decide)

/-- **C10**: the most expensive `Fashion` record is selected by strict
comparison against the `{'price': -1}` sentinel: with no `Fashion` product
the sentinel itself is returned (and `main` reports it as "no products
found", since its price is below 0), and the returned pick is either still
the sentinel or has price strictly above -1 — so a `Fashion` product priced
at or below -1 is never selected. -/
theorem c10_fashion_pick (products : List Product) :
    ((∀ p ∈ products, p.category ≠ "Fashion") →
      (analyze_products products).2.2.1 = fashionSentinel) ∧
    (-1 < (analyze_products products).2.2.1.price ∨
      (analyze_products products).2.2.1 = fashionSentinel) ∧
    reportsFashion fashionSentinel = false := by
  refine ⟨fun h => ?_, ?_, by decide⟩
  · have hu := foldl_fashion_unchanged products ⟨[], fashionSentinel, 0, 0⟩ h
    simpa [analyze_products] using hu
  · have hi := foldl_fashion_invariant products ⟨[], fashionSentinel, 0, 0⟩
      (Or.inr rfl)
    simpa [analyze_products] using hi

/-- Witness for **C7** at the token `a b`, whose space is percent-encoded. -/
theorem c7_request_url_witness :
    ("a b".isEmpty = false) ∧
    (fetch_product always400 (some "a b")).url =
      "http://145.239.87.46:8000/product?next_product_token=a%20b" := by
  refine ⟨by decide, ?_⟩
  have h := (c7_request_url always400 "a b").2.2 (by decide)
  rw [h]
  decide
